import Mathlib

/-!
Shallow embedding of the dialog core of the rsipstack repository
(src/dialog/dialog.rs, src/dialog/client_dialog.rs, src/rsip_ext.rs).

Sequential model: the atomic counters (local_seq, remote_seq) and the
mutex-protected fields (state, id, to) of DialogInner become plain fields
of a record that is threaded through each operation.  The unbounded
observer channel state_sender is modelled by a sender_closed flag on the
record (send fails exactly when the channel is closed) together with an
explicit list of the DialogState values successfully sent.  u32 counters
are Nat reduced modulo 2^32 at each wrapping fetch_add.
-/

namespace Rsipstack

def u32Mod : Nat := 4294967296

/-- SIP methods (rsip::Method), restricted to the constructors the dialog
core inspects plus a few others to stand for the open set. -/
inductive Method where
  | Invite
  | Ack
  | Bye
  | Cancel
  | Info
  | Options
  | Register
  | Notify
  | Update
deriving DecidableEq, Repr

/-- A name-addr value as it appears in From/To headers: the serialized
address part plus the optional tag parameter (the only parameter the
dialog core inspects). -/
structure NameAddr where
  addr : String
  tag : Option String
deriving DecidableEq, Repr

/-- SIP headers (rsip::Header), restricted to the kinds the dialog core
constructs or inspects.  Other carries any header kind the core ignores. -/
inductive Header where
  | Via (v : String)
  | CallId (v : String)
  | From (na : NameAddr)
  | To (na : NameAddr)
  | CSeq (seq : Nat) (method : Method)
  | UserAgent (v : String)
  | Contact (v : String)
  | Route (v : String)
  | RecordRoute (v : String)
  | MaxForwards (n : Nat)
  | ContentLength (n : Nat)
  | Authorization (v : String)
  | Other (name v : String)
deriving DecidableEq, Repr

/-- rsip::Request.  version 2 stands for SIP/2.0; the body is a byte list. -/
structure Request where
  method : Method
  uri : String
  headers : List Header
  body : List Nat
  version : Nat
deriving DecidableEq, Repr

/-- rsip::Response.  status_code is the numeric SIP status. -/
structure Response where
  status_code : Nat
  headers : List Header
  body : List Nat
  version : Nat
deriving DecidableEq, Repr

inductive SipMessage where
  | request (r : Request)
  | response (r : Response)
deriving DecidableEq, Repr

/-- Modelled from the spec: DialogId is the immutable identifying triple
(call_id, from_tag, to_tag); its definition lives in dialog/mod.rs which is
not among the provided sources. -/
structure DialogId where
  call_id : String
  from_tag : String
  to_tag : String
deriving DecidableEq, Repr

structure Credential where
  username : String
  password : String
deriving DecidableEq, Repr

/-- DialogState (dialog.rs).  Confirmed carries the 2xx response as built
in client_dialog.rs (DialogState::Confirmed(dialog_id, resp)). -/
inductive DialogState where
  | Calling (id : DialogId)
  | Trying (id : DialogId)
  | Early (id : DialogId) (resp : Response)
  | WaitAck (id : DialogId) (resp : Response)
  | Confirmed (id : DialogId) (resp : Response)
  | Updated (id : DialogId) (req : Request)
  | Notify (id : DialogId) (req : Request)
  | Info (id : DialogId) (req : Request)
  | Terminated (id : DialogId) (code : Option Nat)
deriving DecidableEq, Repr

/-- DialogState::is_confirmed. -/
def DialogState.is_confirmed : DialogState → Bool
  | DialogState.Confirmed _ _ => true
  | _ => false

/-- A state is persistent when transition swaps it into the state field;
Updated/Notify/Info are side-channel events (dialog.rs transition). -/
def DialogState.is_persistent : DialogState → Bool
  | DialogState.Updated _ _ => false
  | DialogState.Notify _ _ => false
  | DialogState.Info _ _ => false
  | _ => true

/-- DialogInner (dialog.rs).  Mutex/atomic wrappers are flattened to plain
fields; endpoint_inner is represented by the two values the dialog core
reads from it (via_addr for get_via, user_agent); state_sender is
represented by the sender_closed flag. -/
structure DialogInner where
  id : DialogId
  state : DialogState
  local_seq : Nat
  remote_seq : Nat
  local_contact : Option String
  remote_uri : String
  from_ : NameAddr
  to_ : NameAddr
  credential : Option Credential
  route_set : List String
  initial_request : Request
  via_addr : String
  user_agent : String
  sender_closed : Bool
deriving DecidableEq, Repr

namespace DialogInner

/-- DialogInner::get_local_seq. -/
def get_local_seq (d : DialogInner) : Nat := d.local_seq

/-- DialogInner::increment_local_seq: fetch_add(1) on the u32 then load. -/
def increment_local_seq (d : DialogInner) : Nat × DialogInner :=
  let v := (d.local_seq + 1) % u32Mod
  (v, { d with local_seq := v })

/-- DialogInner::increment_remove_seq: fetch_add(1) on remote_seq then
load (the misspelled helper operates on the remote counter). -/
def increment_remove_seq (d : DialogInner) : Nat × DialogInner :=
  let v := (d.remote_seq + 1) % u32Mod
  (v, { d with remote_seq := v })

end DialogInner

/-- Result of DialogInner::transition: ok is false when state_sender.send
failed (channel closed) and the function returned Err; sent lists the
observations delivered to the channel. -/
structure TransitionOut where
  ok : Bool
  dialog : DialogInner
  sent : List DialogState
deriving DecidableEq, Repr

/-- DialogInner::transition (dialog.rs): send the state on state_sender
first (the question-mark operator returns the send error before anything
else happens); side-channel states return Ok leaving the state field
untouched; every other state is swapped into the state field. -/
def DialogInner.transition (d : DialogInner) (s : DialogState) : TransitionOut :=
  if d.sender_closed then
    { ok := false, dialog := d, sent := [] }
  else if s.is_persistent then
    { ok := true, dialog := { d with state := s }, sent := [s] }
  else
    { ok := true, dialog := d, sent := [s] }

/-- First CSeq header's seq, as cseq_header()?.seq()? (None = parse error). -/
def cseq_of (hs : List Header) : Option Nat :=
  hs.findSome? fun h =>
    match h with
    | Header.CSeq seq _ => some seq
    | _ => none

/-- Outcome of ClientInviteDialog::handle: Ok, Err(DialogError) after the
405 reply, or Err(ChannelClosed) propagated from transition. -/
inductive HandleOutcome where
  | ok
  | dialogError
  | channelClosed
deriving DecidableEq, Repr

/-- Observable effects of one ClientInviteDialog::handle call: the final
dialog record, the status codes replied on the transaction, which method
handler (if any) the request was dispatched to, the DialogState values
sent to the observer, and the returned outcome. -/
structure HandleResult where
  dialog : DialogInner
  replies : List Nat
  dispatched : Option Method
  sent : List DialogState
  outcome : HandleOutcome
deriving DecidableEq, Repr

/-- ClientInviteDialog::handle_bye: transition to Terminated(id, None)
(propagating a channel error), then reply 200. -/
def handle_bye (d : DialogInner) : HandleResult :=
  let t := d.transition (DialogState.Terminated d.id none)
  if t.ok then
    { dialog := t.dialog, replies := [200], dispatched := some Method.Bye,
      sent := t.sent, outcome := HandleOutcome.ok }
  else
    { dialog := t.dialog, replies := [], dispatched := some Method.Bye,
      sent := t.sent, outcome := HandleOutcome.channelClosed }

/-- ClientInviteDialog::handle_info: transition with the side-channel
Info state (propagating a channel error), then reply 200. -/
def handle_info (d : DialogInner) (req : Request) : HandleResult :=
  let t := d.transition (DialogState.Info d.id req)
  if t.ok then
    { dialog := t.dialog, replies := [200], dispatched := some Method.Info,
      sent := t.sent, outcome := HandleOutcome.ok }
  else
    { dialog := t.dialog, replies := [], dispatched := some Method.Info,
      sent := t.sent, outcome := HandleOutcome.channelClosed }

/-- ClientInviteDialog::handle (client_dialog.rs): extract the CSeq
(None = parse error propagated); a CSeq below remote_seq is answered 500
and absorbed; otherwise the CSeq is stored into remote_seq and, when the
dialog is confirmed, the method is dispatched: Invite is accepted
silently, Bye/Info go to their handlers, anything else is answered 405
with a DialogError; before confirmation the request is logged and
ignored. -/
def handle (d : DialogInner) (req : Request) : Option HandleResult :=
  (cseq_of req.headers).map fun cseq =>
    if cseq < d.remote_seq then
      { dialog := d, replies := [500], dispatched := none, sent := [],
        outcome := HandleOutcome.ok }
    else
      let d1 := { d with remote_seq := cseq }
      if d1.state.is_confirmed then
        match req.method with
        | Method.Invite =>
            { dialog := d1, replies := [], dispatched := none, sent := [],
              outcome := HandleOutcome.ok }
        | Method.Bye => handle_bye d1
        | Method.Info => handle_info d1 req
        | _ =>
            { dialog := d1, replies := [405], dispatched := none, sent := [],
              outcome := HandleOutcome.dialogError }
      else
        { dialog := d1, replies := [], dispatched := none, sent := [],
          outcome := HandleOutcome.ok }

/-- EndpointInner::get_via as used by make_request: a fresh Via from the
endpoint, optionally carrying the caller-provided branch parameter. -/
def get_via (d : DialogInner) (branch : Option String) : Header :=
  Header.Via (d.via_addr ++ branch.getD "")

/-- DialogInner::make_request (dialog.rs): the CSeq is the supplied value,
else the value of increment_remove_seq(); headers are pushed in source
order: caller headers, Via, Call-ID, From, To, CSeq, User-Agent, Contact
(when local_contact is set), the route_set, Max-Forwards 70 and a
Content-Length when a body is supplied; the request-URI is remote_uri and
the version SIP/2.0. -/
def make_request (d : DialogInner) (method : Method) (cseq : Option Nat)
    (branch : Option String) (headers : Option (List Header))
    (body : Option (List Nat)) : Request × DialogInner :=
  let seqd := match cseq with
    | some c => (c, d)
    | none => d.increment_remove_seq
  let d1 := seqd.2
  let hs := headers.getD []
  let hs := hs ++ [get_via d1 branch]
  let hs := hs ++ [Header.CallId d1.id.call_id]
  let hs := hs ++ [Header.From d1.from_]
  let hs := hs ++ [Header.To d1.to_]
  let hs := hs ++ [Header.CSeq seqd.1 method]
  let hs := hs ++ [Header.UserAgent d1.user_agent]
  let hs := hs ++ (match d1.local_contact with
    | some c => [Header.Contact c]
    | none => [])
  let hs := hs ++ d1.route_set.map Header.Route
  let hs := hs ++ [Header.MaxForwards 70]
  let hs := hs ++ (match body with
    | some b => [Header.ContentLength b.length]
    | none => [])
  ({ method := method, uri := d1.remote_uri, headers := hs,
     body := body.getD [], version := 2 }, d1)

/-- The retain closure of the header_pop! macro (rsip_ext.rs): the first
flag starts true and is cleared on the first header matching the kind,
which is the only header dropped. -/
def retain_first_removed (p : Header → Bool) : Bool → List Header → List Header
  | _, [] => []
  | first, h :: t =>
      if first && p h then retain_first_removed p false t
      else h :: retain_first_removed p first t

/-- header_pop! (rsip_ext.rs): remove the first header matching the kind. -/
def header_pop (p : Header → Bool) (hs : List Header) : List Header :=
  retain_first_removed p true hs

def isRoute : Header → Bool
  | Header.Route _ => true
  | _ => false

/-- route_header().map(value): the value of the first Route header. -/
def route_header (hs : List Header) : Option String :=
  hs.findSome? fun h =>
    match h with
    | Header.Route v => some v
    | _ => none

/-- cseq_header_mut()?.mut_seq(n): replace the seq of the first CSeq
header, leaving its method and every other header untouched. -/
def set_first_cseq_seq (hs : List Header) (n : Nat) : List Header :=
  match hs with
  | [] => []
  | Header.CSeq _ m :: t => Header.CSeq n m :: t
  | h :: t => h :: set_first_cseq_seq t n

/-- Modelled from the spec: handle_client_authenticate (dialog/authenticate.rs
is not among the provided sources) rebuilds the transaction around the
original request with its CSeq updated to new_seq and an
Authorization/Proxy-Authorization header attached; it does not touch
dialog state. -/
def handle_client_authenticate (new_seq : Nat) (orig : Request)
    (cred : Credential) : Request :=
  { orig with
    headers := set_first_cseq_seq orig.headers new_seq
               ++ [Header.Authorization cred.username] }

/-- Observable effects of DialogInner::do_request: final dialog record,
returned response (None when the stream ended, a request arrived, or the
auth-exhausted break fired), DialogState observations sent, the requests
sent on transactions (the initial one after the Route pop, plus any
auth-rebuilt request), the destination hint taken from the first Route
header, and ok = false when a channel error was propagated. -/
structure DoReqResult where
  dialog : DialogInner
  response : Option Response
  sent : List DialogState
  sent_requests : List Request
  destination : Option String
  ok : Bool
deriving DecidableEq, Repr

/-- The receive loop of DialogInner::do_request (dialog.rs): 100 is
skipped; 180/183 transition to Early; 401/407 terminate when a retry was
already sent, otherwise rebuild the transaction through the auth helper —
for CANCEL with get_local_seq, else with increment_local_seq — or, with
no credential, transition to Terminated and keep receiving; any other
response is returned; a request on the stream breaks the loop. -/
def do_request_loop (d : DialogInner) (method : Method) (req : Request)
    (auth_sent : Bool) (sent : List DialogState) (reqs : List Request) :
    List SipMessage → DoReqResult
  | [] => ⟨d, none, sent, reqs, none, true⟩
  | SipMessage.request _ :: _ => ⟨d, none, sent, reqs, none, true⟩
  | SipMessage.response resp :: rest =>
    if resp.status_code = 100 then
      do_request_loop d method req auth_sent sent reqs rest
    else if resp.status_code = 180 ∨ resp.status_code = 183 then
      let t := d.transition (DialogState.Early d.id resp)
      if t.ok then
        do_request_loop t.dialog method req auth_sent (sent ++ t.sent) reqs rest
      else ⟨t.dialog, none, sent, reqs, none, false⟩
    else if resp.status_code = 401 ∨ resp.status_code = 407 then
      if auth_sent then
        let t := d.transition (DialogState.Terminated d.id (some resp.status_code))
        if t.ok then ⟨t.dialog, none, sent ++ t.sent, reqs, none, true⟩
        else ⟨t.dialog, none, sent, reqs, none, false⟩
      else
        match d.credential with
        | some cred =>
          let seqd := match method with
            | Method.Cancel => (d.get_local_seq, d)
            | _ => d.increment_local_seq
          let rebuilt := handle_client_authenticate seqd.1 req cred
          do_request_loop seqd.2 method rebuilt true sent (reqs ++ [rebuilt]) rest
        | none =>
          let t := d.transition (DialogState.Terminated d.id (some resp.status_code))
          if t.ok then
            do_request_loop t.dialog method req true (sent ++ t.sent) reqs rest
          else ⟨t.dialog, none, sent, reqs, none, false⟩
    else
      ⟨d, some resp, sent, reqs, none, true⟩

/-- DialogInner::do_request (dialog.rs): read the destination hint from
the first Route header, pop that header, create and send the client
transaction, then run the receive loop. -/
def do_request (d : DialogInner) (request : Request) (msgs : List SipMessage) :
    DoReqResult :=
  let method := request.method
  let destination := route_header request.headers
  let request := { request with headers := header_pop isRoute request.headers }
  let r := do_request_loop d method request false [] [request] msgs
  { r with destination := destination }

def has_cseq (hs : List Header) : Bool :=
  (cseq_of hs).isSome

/-- The request built by ClientInviteDialog::cancel: initial_request
cloned, method set to CANCEL, the first CSeq header's seq set to the
current local_seq (cseq_header_mut errors out when no CSeq header exists),
body cleared. -/
def build_cancel_request (d : DialogInner) : Option Request :=
  if has_cseq d.initial_request.headers then
    some { d.initial_request with
           method := Method.Cancel,
           headers := set_first_cseq_seq d.initial_request.headers d.get_local_seq,
           body := [] }
  else none

/-- ClientInviteDialog::cancel: build the CANCEL request and run
do_request on it; nothing else. -/
def cancel (d : DialogInner) (msgs : List SipMessage) : Option DoReqResult :=
  (build_cancel_request d).map fun req => do_request d req msgs

/-- The ACK synthesized in process_invite on a 200 OK (client_dialog.rs):
method ACK, URI of the transaction's original request, the response's
headers verbatim, empty body, SIP/2.0. -/
def make_ack (orig : Request) (resp : Response) : Request :=
  { method := Method.Ack, uri := orig.uri, headers := resp.headers,
    body := [], version := 2 }

/-- Modelled from the spec: DialogId::try_from extracts the triple from a
message's Call-ID, From tag and To tag (dialog/mod.rs is not among the
provided sources); it fails when Call-ID, From or To is absent. -/
def DialogId.try_from (req : Request) : Option DialogId :=
  let cid := req.headers.findSome? fun h =>
    match h with | Header.CallId v => some v | _ => none
  let fna := req.headers.findSome? fun h =>
    match h with | Header.From na => some na | _ => none
  let tna := req.headers.findSome? fun h =>
    match h with | Header.To na => some na | _ => none
  match cid, fna, tna with
  | some c, some f, some t => some ⟨c, f.tag.getD "", t.tag.getD ""⟩
  | _, _, _ => none

/-- Observable effects of ClientInviteDialog::process_invite: final
dialog record, the returned (dialog_id, final_response) pair, ACKs sent
via send_ack, DialogState observations, requests sent (initial INVITE and
auth rebuilds), and ok = false when an error was propagated. -/
structure PIResult where
  dialog : DialogInner
  dialog_id : DialogId
  final_response : Option Response
  acks : List Request
  sent : List DialogState
  sent_requests : List Request
  ok : Bool
deriving DecidableEq, Repr

/-- The receive loop of ClientInviteDialog::process_invite
(client_dialog.rs): requests on the stream are skipped; 100 → Trying,
180/183 → Early; 200 synthesizes the ACK, recomputes the DialogId from
it, records the final response, sends the ACK, transitions to Confirmed
and breaks; 603/487 → Terminated (loop keeps receiving); 401/407 either
terminate (retry already sent, break), rebuild through the auth helper
with increment_local_seq, or terminate when no credential is configured
(loop keeps receiving); remaining responses terminate on 3xx/4xx/5xx/6xx
kind and are ignored otherwise. -/
def process_invite_loop (d : DialogInner) (orig : Request)
    (dialog_id : DialogId) (final_response : Option Response)
    (auth_sent : Bool) (acks : List Request) (sent : List DialogState)
    (reqs : List Request) : List SipMessage → PIResult
  | [] => ⟨d, dialog_id, final_response, acks, sent, reqs, true⟩
  | SipMessage.request _ :: rest =>
      process_invite_loop d orig dialog_id final_response auth_sent acks sent reqs rest
  | SipMessage.response resp :: rest =>
    if resp.status_code = 100 then
      let t := d.transition (DialogState.Trying d.id)
      if t.ok then
        process_invite_loop t.dialog orig dialog_id final_response auth_sent
          acks (sent ++ t.sent) reqs rest
      else ⟨t.dialog, dialog_id, final_response, acks, sent, reqs, false⟩
    else if resp.status_code = 180 ∨ resp.status_code = 183 then
      let t := d.transition (DialogState.Early d.id resp)
      if t.ok then
        process_invite_loop t.dialog orig dialog_id final_response auth_sent
          acks (sent ++ t.sent) reqs rest
      else ⟨t.dialog, dialog_id, final_response, acks, sent, reqs, false⟩
    else if resp.status_code = 200 then
      let ack := make_ack orig resp
      match DialogId.try_from ack with
      | none => ⟨d, dialog_id, final_response, acks, sent, reqs, false⟩
      | some nid =>
        let t := d.transition (DialogState.Confirmed nid resp)
        if t.ok then
          ⟨t.dialog, nid, some resp, acks ++ [ack], sent ++ t.sent, reqs, true⟩
        else ⟨t.dialog, nid, some resp, acks ++ [ack], sent, reqs, false⟩
    else if resp.status_code = 603 ∨ resp.status_code = 487 then
      let t := d.transition (DialogState.Terminated d.id (some resp.status_code))
      if t.ok then
        process_invite_loop t.dialog orig dialog_id final_response auth_sent
          acks (sent ++ t.sent) reqs rest
      else ⟨t.dialog, dialog_id, final_response, acks, sent, reqs, false⟩
    else if resp.status_code = 401 ∨ resp.status_code = 407 then
      if auth_sent then
        let t := d.transition (DialogState.Terminated d.id (some resp.status_code))
        if t.ok then ⟨t.dialog, dialog_id, final_response, acks, sent ++ t.sent, reqs, true⟩
        else ⟨t.dialog, dialog_id, final_response, acks, sent, reqs, false⟩
      else
        match d.credential with
        | some cred =>
          let seqd := d.increment_local_seq
          let rebuilt := handle_client_authenticate seqd.1 orig cred
          process_invite_loop seqd.2 rebuilt dialog_id final_response true
            acks sent (reqs ++ [rebuilt]) rest
        | none =>
          let t := d.transition (DialogState.Terminated d.id (some resp.status_code))
          if t.ok then
            process_invite_loop t.dialog orig dialog_id final_response true
              acks (sent ++ t.sent) reqs rest
          else ⟨t.dialog, dialog_id, final_response, acks, sent, reqs, false⟩
    else if 300 ≤ resp.status_code ∧ resp.status_code < 700 then
      let t := d.transition (DialogState.Terminated d.id (some resp.status_code))
      if t.ok then
        process_invite_loop t.dialog orig dialog_id final_response auth_sent
          acks (sent ++ t.sent) reqs rest
      else ⟨t.dialog, dialog_id, final_response, acks, sent, reqs, false⟩
    else
      process_invite_loop d orig dialog_id final_response auth_sent acks sent reqs rest

/-- ClientInviteDialog::process_invite: transition to Calling, send the
INVITE transaction, then run the receive loop. -/
def process_invite (d : DialogInner) (orig : Request)
    (msgs : List SipMessage) : PIResult :=
  let t := d.transition (DialogState.Calling d.id)
  if t.ok then
    process_invite_loop t.dialog orig d.id none false [] t.sent [orig] msgs
  else ⟨t.dialog, d.id, none, [], t.sent, [], false⟩

/-! Concrete sample values used by witnesses and counterexamples. -/

def wId : DialogId := { call_id := "c1", from_tag := "f1", to_tag := "" }

def wReqInvite : Request :=
  { method := Method.Invite, uri := "sip:b",
    headers := [Header.CSeq 1 Method.Invite, Header.CallId "c1",
                Header.From { addr := "a", tag := some "f1" },
                Header.To { addr := "b", tag := none }],
    body := [], version := 2 }

def wDialog : DialogInner :=
  { id := wId, state := DialogState.Calling wId, local_seq := 1,
    remote_seq := 1, local_contact := none, remote_uri := "sip:b",
    from_ := { addr := "a", tag := some "f1" },
    to_ := { addr := "b", tag := none }, credential := none,
    route_set := [], initial_request := wReqInvite, via_addr := "via",
    user_agent := "ua", sender_closed := false }

def wResp200 : Response :=
  { status_code := 200,
    headers := [Header.CallId "c1",
                Header.From { addr := "a", tag := some "f1" },
                Header.To { addr := "b", tag := some "xyz" }],
    body := [], version := 2 }

/-- A dialog already in the Terminated persistent state. -/
def wTerminated : DialogInner :=
  { wDialog with state := DialogState.Terminated wId none }

/-- A dialog whose observer channel is closed. -/
def wClosed : DialogInner := { wDialog with sender_closed := true }

/-- A confirmed dialog with remote_seq 5. -/
def wConfirmed : DialogInner :=
  { wDialog with state := DialogState.Confirmed wId wResp200, remote_seq := 5 }

/-- An in-dialog INFO request carrying CSeq 5. -/
def wReqInfo5 : Request :=
  { method := Method.Info, uri := "sip:b",
    headers := [Header.CSeq 5 Method.Info, Header.CallId "c1"],
    body := [], version := 2 }

/-- The result of handling wReqInfo5 on wConfirmed. -/
def wInfoResult : HandleResult :=
  { dialog := wConfirmed, replies := [200], dispatched := some Method.Info,
    sent := [DialogState.Info wId wReqInfo5], outcome := HandleOutcome.ok }

/-! Helper lemmas shared by several claims. -/

theorem transition_preserves_local_seq (d : DialogInner) (s : DialogState) :
    (d.transition s).dialog.local_seq = d.local_seq := by
  unfold DialogInner.transition
  split
  · rfl
  · split <;> rfl

theorem transition_preserves_remote_seq (d : DialogInner) (s : DialogState) :
    (d.transition s).dialog.remote_seq = d.remote_seq := by
  unfold DialogInner.transition
  split
  · rfl
  · split <;> rfl

/-! Claim theorems. -/

/-- C4 counterexample: on a dialog whose stored state is Terminated, a
subsequent transition to the persistent state Confirmed does replace the
stored state and does emit a Confirmed observation, contradicting the
claim that no persistent transition occurs after Terminated. -/
theorem transition_after_terminated_replaces_state :
    (wTerminated.transition (DialogState.Confirmed wId wResp200)).dialog.state
        = DialogState.Confirmed wId wResp200
    ∧ (wTerminated.transition (DialogState.Confirmed wId wResp200)).sent
        = [DialogState.Confirmed wId wResp200]
    ∧ wTerminated.state = DialogState.Terminated wId none := by
  exact ⟨rfl, rfl, rfl⟩

/-- C4 amended: DialogInner::transition has no Terminated guard — with
the observer channel open, every persistent state (the prior state being
Terminated or not) is swapped into the state field and its observation is
emitted; only side-channel states leave the stored state unchanged. -/
theorem transition_persistent_unconditional (d : DialogInner) (s : DialogState)
    (hopen : d.sender_closed = false) (hp : s.is_persistent = true) :
    d.transition s = { ok := true, dialog := { d with state := s }, sent := [s] } := by
  unfold DialogInner.transition
  rw [hopen, hp]
  simp

/-- C4 witness: the amended theorem applied to a Terminated dialog and a
Confirmed target state. -/
theorem transition_persistent_unconditional_witness :
    wTerminated.sender_closed = false
    ∧ (DialogState.Confirmed wId wResp200).is_persistent = true
    ∧ wTerminated.transition (DialogState.Confirmed wId wResp200)
        = { ok := true,
            dialog := { wTerminated with state := DialogState.Confirmed wId wResp200 },
            sent := [DialogState.Confirmed wId wResp200] } :=
  ⟨rfl, rfl, transition_persistent_unconditional wTerminated
    (DialogState.Confirmed wId wResp200) rfl rfl⟩

/-- C5 counterexample: when the observer channel is closed, transition
returns the send error with the in-memory state field left at its old
value — the state is not committed, contradicting the claim that it has
been updated to the new state despite the send error. -/
theorem transition_send_error_no_commit :
    (wClosed.transition (DialogState.Confirmed wId wResp200)).ok = false
    ∧ (wClosed.transition (DialogState.Confirmed wId wResp200)).dialog = wClosed
    ∧ (wClosed.transition (DialogState.Confirmed wId wResp200)).dialog.state
        = DialogState.Calling wId := by
  exact ⟨rfl, rfl, rfl⟩

/-- C5 amended: if sending on state_sender fails (observer channel
closed), the error is returned to the caller and the in-memory state
field is left unchanged — the send precedes the swap, so the transition
is not committed. -/
theorem transition_send_error_returns_unchanged (d : DialogInner)
    (s : DialogState) (hclosed : d.sender_closed = true) :
    d.transition s = { ok := false, dialog := d, sent := [] } := by
  unfold DialogInner.transition
  rw [hclosed]
  simp

/-- C5 witness: the amended theorem applied to a closed-channel dialog. -/
theorem transition_send_error_returns_unchanged_witness :
    wClosed.sender_closed = true
    ∧ wClosed.transition (DialogState.Confirmed wId wResp200)
        = { ok := false, dialog := wClosed, sent := [] } :=
  ⟨rfl, transition_send_error_returns_unchanged wClosed
    (DialogState.Confirmed wId wResp200) rfl⟩

/-- C8: transition with a side-channel state (Updated, Notify or Info —
exactly the states that are not persistent) leaves the persisted state
field, and the whole dialog record, unchanged for every prior value; when
the observer channel is open the event is sent and Ok returned. -/
theorem transition_side_channel_preserves_state (d : DialogInner)
    (s : DialogState) (hs : s.is_persistent = false) :
    (d.transition s).dialog = d
    ∧ (d.sender_closed = false →
        d.transition s = { ok := true, dialog := d, sent := [s] }) := by
  constructor
  · unfold DialogInner.transition
    split
    · rfl
    · rw [hs]
      simp
  · intro hopen
    unfold DialogInner.transition
    rw [hopen, hs]
    simp

/-- C8 witness: an Info side-channel event on a Terminated dialog. -/
theorem transition_side_channel_preserves_state_witness :
    (DialogState.Info wId wReqInfo5).is_persistent = false
    ∧ (wTerminated.transition (DialogState.Info wId wReqInfo5)).dialog = wTerminated
    ∧ (wTerminated.sender_closed = false →
        wTerminated.transition (DialogState.Info wId wReqInfo5)
          = { ok := true, dialog := wTerminated,
              sent := [DialogState.Info wId wReqInfo5] }) :=
  ⟨rfl, transition_side_channel_preserves_state wTerminated
    (DialogState.Info wId wReqInfo5) rfl⟩

/-- An in-dialog BYE request carrying CSeq 4, stale against wConfirmed. -/
def wReqBye4 : Request :=
  { method := Method.Bye, uri := "sip:b",
    headers := [Header.CSeq 4 Method.Bye, Header.CallId "c1"],
    body := [], version := 2 }

/-- C2: an inbound request whose CSeq is strictly below remote_seq is
answered 500, handle returns Ok with the dialog record (hence remote_seq)
unchanged, and the request is not dispatched to any method handler. -/
theorem handle_stale_cseq_rejected_500 (d : DialogInner) (req : Request)
    (cseq : Nat) (hc : cseq_of req.headers = some cseq)
    (hlt : cseq < d.remote_seq) :
    handle d req = some { dialog := d, replies := [500], dispatched := none,
                          sent := [], outcome := HandleOutcome.ok } := by
  simp [handle, hc, hlt]

/-- C2 witness: a BYE with CSeq 4 against a confirmed dialog whose
remote_seq is 5. -/
theorem handle_stale_cseq_rejected_500_witness :
    cseq_of wReqBye4.headers = some 4
    ∧ 4 < wConfirmed.remote_seq
    ∧ handle wConfirmed wReqBye4
        = some { dialog := wConfirmed, replies := [500], dispatched := none,
                 sent := [], outcome := HandleOutcome.ok } :=
  ⟨rfl, by decide, handle_stale_cseq_rejected_500 wConfirmed wReqBye4 4 rfl (by decide)⟩

/-- C7 counterexample: the filter is a strict comparison, so a request
whose CSeq equals remote_seq is dispatched, and dispatching it leaves
remote_seq where it was — handling the very same INFO request twice on
the same dialog dispatches it to the INFO handler both times, refuting
at-most-once processing of a given remote CSeq value. -/
theorem handle_equal_cseq_dispatched_twice :
    handle wConfirmed wReqInfo5 = some wInfoResult
    ∧ handle wInfoResult.dialog wReqInfo5 = some wInfoResult
    ∧ wInfoResult.dispatched = some Method.Info
    ∧ cseq_of wReqInfo5.headers = some 5
    ∧ wConfirmed.remote_seq = 5 := by
  refine ⟨?_, ?_, rfl, rfl, rfl⟩ <;> decide

theorem handle_bye_preserves_remote_seq (d : DialogInner) :
    (handle_bye d).dialog.remote_seq = d.remote_seq := by
  simp only [handle_bye]
  split <;> exact transition_preserves_remote_seq d _

theorem handle_info_preserves_remote_seq (d : DialogInner) (req : Request) :
    (handle_info d req).dialog.remote_seq = d.remote_seq := by
  simp only [handle_info]
  split <;> exact transition_preserves_remote_seq d _

/-- C7 amended: the CSeq filter guarantees that remote_seq never moves
backwards (a dispatched request stores a CSeq at least as large as the
old remote_seq); it does not guarantee at-most-once processing, since a
CSeq equal to remote_seq passes the filter again. -/
theorem handle_remote_seq_monotone (d : DialogInner) (req : Request)
    (r : HandleResult) (h : handle d req = some r) :
    d.remote_seq ≤ r.dialog.remote_seq := by
  simp only [handle] at h
  cases hc : cseq_of req.headers with
  | none => rw [hc] at h; simp at h
  | some cseq =>
    rw [hc] at h
    simp only [Option.map_some', Option.some.injEq] at h
    subst h
    by_cases hlt : cseq < d.remote_seq
    · simp [hlt]
    · have hle : d.remote_seq ≤ cseq := Nat.le_of_not_lt hlt
      simp only [if_neg hlt]
      split
      · cases req.method <;>
          simp [handle_bye_preserves_remote_seq, handle_info_preserves_remote_seq, hle]
      · exact hle

/-- C7 witness: the monotonicity theorem applied to the fresh INFO. -/
theorem handle_remote_seq_monotone_witness :
    handle wConfirmed wReqInfo5 = some wInfoResult
    ∧ wConfirmed.remote_seq ≤ wInfoResult.dialog.remote_seq :=
  ⟨by decide, handle_remote_seq_monotone wConfirmed wReqInfo5 wInfoResult (by decide)⟩

/-- C10: on a confirmed dialog, a fresh-CSeq INVITE is accepted silently —
the CSeq is stored into remote_seq, no reply is sent, no state observation
is emitted and Ok is returned — while BYE and INFO are dispatched to
their handlers and answered 200, and every other method is answered 405
with a DialogError returned. -/
theorem handle_confirmed_invite_silent (d : DialogInner) (req : Request)
    (cseq : Nat) (hopen : d.sender_closed = false)
    (hconf : d.state.is_confirmed = true)
    (hc : cseq_of req.headers = some cseq) (hge : d.remote_seq ≤ cseq) :
    (req.method = Method.Invite →
      handle d req = some ⟨{ d with remote_seq := cseq }, [], none, [],
                           HandleOutcome.ok⟩)
    ∧ (req.method = Method.Bye →
      handle d req = some ⟨{ d with remote_seq := cseq
                                    state := DialogState.Terminated d.id none },
                           [200], some Method.Bye,
                           [DialogState.Terminated d.id none],
                           HandleOutcome.ok⟩)
    ∧ (req.method = Method.Info →
      handle d req = some ⟨{ d with remote_seq := cseq }, [200],
                           some Method.Info, [DialogState.Info d.id req],
                           HandleOutcome.ok⟩)
    ∧ (req.method ≠ Method.Invite → req.method ≠ Method.Bye →
        req.method ≠ Method.Info →
      handle d req = some ⟨{ d with remote_seq := cseq }, [405], none, [],
                           HandleOutcome.dialogError⟩) := by
  have hnlt : ¬ cseq < d.remote_seq := Nat.not_lt.mpr hge
  refine ⟨?_, ?_, ?_, ?_⟩
  · intro hm
    simp [handle, hc, hnlt, hconf, hm]
  · intro hm
    simp [handle, hc, hnlt, hconf, hm, handle_bye, DialogInner.transition,
          hopen, DialogState.is_persistent]
  · intro hm
    simp [handle, hc, hnlt, hconf, hm, handle_info, DialogInner.transition,
          hopen, DialogState.is_persistent]
  · intro h1 h2 h3
    cases hm : req.method <;> first
      | exact absurd hm h1
      | exact absurd hm h2
      | exact absurd hm h3
      | simp [handle, hc, hnlt, hconf, hm]

/-- C10 witness: the dispatch theorem applied to a confirmed dialog and a
fresh INVITE (the INVITE conjunct instantiated at CSeq 7). -/
theorem handle_confirmed_invite_silent_witness :
    cseq_of ({ wReqInvite with
        headers := [Header.CSeq 7 Method.Invite] } : Request).headers = some 7
    ∧ wConfirmed.remote_seq ≤ 7
    ∧ (({ wReqInvite with
        headers := [Header.CSeq 7 Method.Invite] } : Request).method = Method.Invite →
      handle wConfirmed { wReqInvite with headers := [Header.CSeq 7 Method.Invite] }
        = some ⟨{ wConfirmed with remote_seq := 7 }, [], none, [],
                HandleOutcome.ok⟩) :=
  ⟨rfl, by decide,
   (handle_confirmed_invite_silent wConfirmed
      { wReqInvite with headers := [Header.CSeq 7 Method.Invite] } 7
      rfl rfl rfl (by decide)).1⟩

/-- C1: what make_request actually does when cseq is None — the CSeq of
the produced request is the misspelled increment_remove_seq() value,
i.e. the REMOTE sequence counter incremented by one; remote_seq ends up
incremented and local_seq is untouched.  This contradicts the claim (and
spec §4.C) that the CSeq comes from increment_local_seq() with remote_seq
neither consulted nor modified, and contradicts the code's own CSeq
discipline elsewhere (do_request's auth retry renumbers the same request
from local_seq). -/
theorem make_request_default_cseq_uses_remote_seq (d : DialogInner)
    (m : Method) (branch : Option String) (hs : Option (List Header))
    (body : Option (List Nat)) :
    (make_request d m none branch hs body).2.remote_seq
        = (d.remote_seq + 1) % u32Mod
    ∧ (make_request d m none branch hs body).2.local_seq = d.local_seq
    ∧ Header.CSeq ((d.remote_seq + 1) % u32Mod) m
        ∈ (make_request d m none branch hs body).1.headers := by
  refine ⟨rfl, rfl, ?_⟩
  simp [make_request, DialogInner.increment_remove_seq, get_via]

/-! header_pop characterization (C9). -/

theorem retain_first_removed_false (p : Header → Bool) (hs : List Header) :
    retain_first_removed p false hs = hs := by
  induction hs with
  | nil => rfl
  | cons h t ih => simp [retain_first_removed, ih]

theorem header_pop_eq_take_drop (p : Header → Bool) (hs : List Header) :
    header_pop p hs
      = hs.takeWhile (fun h => !p h)
        ++ (hs.dropWhile (fun h => !p h)).drop 1 := by
  induction hs with
  | nil => rfl
  | cons h t ih =>
    cases hp : p h with
    | true =>
      simp [header_pop, retain_first_removed, hp, retain_first_removed_false,
            List.takeWhile_cons, List.dropWhile_cons]
    | false =>
      simpa [header_pop, retain_first_removed, hp, List.takeWhile_cons,
             List.dropWhile_cons] using ih

theorem header_pop_filter_route (hs : List Header) (v : String)
    (rs : List Header) (h : hs.filter isRoute = Header.Route v :: rs) :
    (header_pop isRoute hs).filter isRoute = rs := by
  induction hs with
  | nil => simp at h
  | cons hd t ih =>
    cases hr : isRoute hd with
    | true =>
      have hpop : header_pop isRoute (hd :: t) = t := by
        simp [header_pop, retain_first_removed, hr, retain_first_removed_false]
      rw [hpop]
      rw [List.filter_cons, if_pos hr] at h
      exact (List.cons.injEq _ _ _ _ ▸ h).2
    | false =>
      have hpop : header_pop isRoute (hd :: t) = hd :: header_pop isRoute t := by
        simp [header_pop, retain_first_removed, hr]
      rw [hpop, List.filter_cons, if_neg (by simp [hr])]
      rw [List.filter_cons, if_neg (by simp [hr])] at h
      exact ih h

theorem header_pop_filter_non_route (hs : List Header) :
    (header_pop isRoute hs).filter (fun h => !isRoute h)
      = hs.filter (fun h => !isRoute h) := by
  induction hs with
  | nil => rfl
  | cons hd t ih =>
    cases hr : isRoute hd with
    | true =>
      have hpop : header_pop isRoute (hd :: t) = t := by
        simp [header_pop, retain_first_removed, hr, retain_first_removed_false]
      rw [hpop, List.filter_cons, if_neg (by simp [hr])]
    | false =>
      have hpop : header_pop isRoute (hd :: t) = hd :: header_pop isRoute t := by
        simp [header_pop, retain_first_removed, hr]
      rw [hpop, List.filter_cons, if_pos (by simp [hr]),
          List.filter_cons, if_pos (by simp [hr]), ih]

theorem route_header_of_filter (hs : List Header) (v : String)
    (rs : List Header) (h : hs.filter isRoute = Header.Route v :: rs) :
    route_header hs = some v := by
  induction hs with
  | nil => simp at h
  | cons hd t ih =>
    cases hd with
    | Route w =>
      rw [List.filter_cons, if_pos (by simp [isRoute])] at h
      have hw : w = v := by
        have := (List.cons.injEq _ _ _ _ ▸ h).1
        cases this
        rfl
      simp [route_header, List.findSome?_cons, hw]
    | Via x =>
      rw [List.filter_cons, if_neg (by simp [isRoute])] at h
      simpa [route_header, List.findSome?_cons] using ih h
    | CallId x =>
      rw [List.filter_cons, if_neg (by simp [isRoute])] at h
      simpa [route_header, List.findSome?_cons] using ih h
    | From x =>
      rw [List.filter_cons, if_neg (by simp [isRoute])] at h
      simpa [route_header, List.findSome?_cons] using ih h
    | To x =>
      rw [List.filter_cons, if_neg (by simp [isRoute])] at h
      simpa [route_header, List.findSome?_cons] using ih h
    | CSeq x y =>
      rw [List.filter_cons, if_neg (by simp [isRoute])] at h
      simpa [route_header, List.findSome?_cons] using ih h
    | UserAgent x =>
      rw [List.filter_cons, if_neg (by simp [isRoute])] at h
      simpa [route_header, List.findSome?_cons] using ih h
    | Contact x =>
      rw [List.filter_cons, if_neg (by simp [isRoute])] at h
      simpa [route_header, List.findSome?_cons] using ih h
    | RecordRoute x =>
      rw [List.filter_cons, if_neg (by simp [isRoute])] at h
      simpa [route_header, List.findSome?_cons] using ih h
    | MaxForwards x =>
      rw [List.filter_cons, if_neg (by simp [isRoute])] at h
      simpa [route_header, List.findSome?_cons] using ih h
    | ContentLength x =>
      rw [List.filter_cons, if_neg (by simp [isRoute])] at h
      simpa [route_header, List.findSome?_cons] using ih h
    | Authorization x =>
      rw [List.filter_cons, if_neg (by simp [isRoute])] at h
      simpa [route_header, List.findSome?_cons] using ih h
    | Other x y =>
      rw [List.filter_cons, if_neg (by simp [isRoute])] at h
      simpa [route_header, List.findSome?_cons] using ih h

theorem do_request_loop_reqs_head (msgs : List SipMessage) :
    ∀ d method req auth_sent sent r0 reqs,
      (do_request_loop d method req auth_sent sent (r0 :: reqs) msgs).sent_requests.head?
        = some r0 := by
  induction msgs with
  | nil => intro _ _ _ _ _ _ _; rfl
  | cons msg rest ih =>
    intro d method req a s r0 reqs
    cases msg with
    | request r => rfl
    | response resp =>
      simp only [do_request_loop]
      split
      · exact ih _ _ _ _ _ _ _
      · split
        · split
          · exact ih _ _ _ _ _ _ _
          · rfl
        · split
          · split
            · split
              · rfl
              · rfl
            · split
              · rw [List.cons_append]
                exact ih _ _ _ _ _ _ _
              · split
                · exact ih _ _ _ _ _ _ _
                · rfl
          · rfl

/-- C9: header_pop! removes exactly the first header matching the given
kind — the result is the prefix before the first match followed by
everything after it, so all other occurrences of the kind and all other
headers stay in their original relative order; in do_request it is
applied once to Route, so with n ≥ 1 Route headers the sent request
carries exactly the last n−1 of them while all non-Route headers are
untouched, and the first Route header supplies the transaction's
destination hint. -/
theorem header_pop_first_and_do_request_route (p : Header → Bool)
    (hs : List Header) (d : DialogInner) (req : Request)
    (msgs : List SipMessage) (v : String) (rs : List Header)
    (hroute : req.headers.filter isRoute = Header.Route v :: rs) :
    header_pop p hs
      = hs.takeWhile (fun h => !p h) ++ (hs.dropWhile (fun h => !p h)).drop 1
    ∧ (do_request d req msgs).destination = some v
    ∧ (do_request d req msgs).sent_requests.head?
        = some { req with headers := header_pop isRoute req.headers }
    ∧ (header_pop isRoute req.headers).filter isRoute = rs
    ∧ (header_pop isRoute req.headers).filter (fun h => !isRoute h)
        = req.headers.filter (fun h => !isRoute h) := by
  refine ⟨header_pop_eq_take_drop p hs, ?_, ?_,
          header_pop_filter_route req.headers v rs hroute,
          header_pop_filter_non_route req.headers⟩
  · show route_header req.headers = some v
    exact route_header_of_filter req.headers v rs hroute
  · exact do_request_loop_reqs_head msgs d req.method
      { req with headers := header_pop isRoute req.headers } false []
      { req with headers := header_pop isRoute req.headers } []

/-- C9 witness: a request with two Route headers around other headers. -/
theorem header_pop_first_and_do_request_route_witness :
    ({ wReqInvite with headers := [Header.Via "v1", Header.Route "r1",
        Header.CSeq 1 Method.Invite, Header.Route "r2"] } : Request).headers.filter
        isRoute = Header.Route "r1" :: [Header.Route "r2"]
    ∧ (do_request wDialog { wReqInvite with headers := [Header.Via "v1",
        Header.Route "r1", Header.CSeq 1 Method.Invite, Header.Route "r2"] }
        []).destination = some "r1"
    ∧ (header_pop isRoute ({ wReqInvite with headers := [Header.Via "v1",
        Header.Route "r1", Header.CSeq 1 Method.Invite, Header.Route "r2"] }
        : Request).headers).filter isRoute = [Header.Route "r2"] :=
  have h := header_pop_first_and_do_request_route isRoute [] wDialog
    { wReqInvite with headers := [Header.Via "v1", Header.Route "r1",
        Header.CSeq 1 Method.Invite, Header.Route "r2"] } [] "r1"
    [Header.Route "r2"] (by decide)
  ⟨by decide, h.2.1, h.2.2.2.1⟩

theorem cseq_of_set_first_cseq_seq (hs : List Header) (n : Nat)
    (h : has_cseq hs = true) :
    cseq_of (set_first_cseq_seq hs n) = some n := by
  induction hs with
  | nil => simp [has_cseq, cseq_of] at h
  | cons hd t ih =>
    cases hd with
    | CSeq s m => simp [set_first_cseq_seq, cseq_of, List.findSome?_cons]
    | Via x =>
      have ht : has_cseq t = true := by
        simpa [has_cseq, cseq_of, List.findSome?_cons] using h
      simpa [set_first_cseq_seq, cseq_of, List.findSome?_cons] using ih ht
    | CallId x =>
      have ht : has_cseq t = true := by
        simpa [has_cseq, cseq_of, List.findSome?_cons] using h
      simpa [set_first_cseq_seq, cseq_of, List.findSome?_cons] using ih ht
    | From x =>
      have ht : has_cseq t = true := by
        simpa [has_cseq, cseq_of, List.findSome?_cons] using h
      simpa [set_first_cseq_seq, cseq_of, List.findSome?_cons] using ih ht
    | To x =>
      have ht : has_cseq t = true := by
        simpa [has_cseq, cseq_of, List.findSome?_cons] using h
      simpa [set_first_cseq_seq, cseq_of, List.findSome?_cons] using ih ht
    | UserAgent x =>
      have ht : has_cseq t = true := by
        simpa [has_cseq, cseq_of, List.findSome?_cons] using h
      simpa [set_first_cseq_seq, cseq_of, List.findSome?_cons] using ih ht
    | Contact x =>
      have ht : has_cseq t = true := by
        simpa [has_cseq, cseq_of, List.findSome?_cons] using h
      simpa [set_first_cseq_seq, cseq_of, List.findSome?_cons] using ih ht
    | Route x =>
      have ht : has_cseq t = true := by
        simpa [has_cseq, cseq_of, List.findSome?_cons] using h
      simpa [set_first_cseq_seq, cseq_of, List.findSome?_cons] using ih ht
    | RecordRoute x =>
      have ht : has_cseq t = true := by
        simpa [has_cseq, cseq_of, List.findSome?_cons] using h
      simpa [set_first_cseq_seq, cseq_of, List.findSome?_cons] using ih ht
    | MaxForwards x =>
      have ht : has_cseq t = true := by
        simpa [has_cseq, cseq_of, List.findSome?_cons] using h
      simpa [set_first_cseq_seq, cseq_of, List.findSome?_cons] using ih ht
    | ContentLength x =>
      have ht : has_cseq t = true := by
        simpa [has_cseq, cseq_of, List.findSome?_cons] using h
      simpa [set_first_cseq_seq, cseq_of, List.findSome?_cons] using ih ht
    | Authorization x =>
      have ht : has_cseq t = true := by
        simpa [has_cseq, cseq_of, List.findSome?_cons] using h
      simpa [set_first_cseq_seq, cseq_of, List.findSome?_cons] using ih ht
    | Other x y =>
      have ht : has_cseq t = true := by
        simpa [has_cseq, cseq_of, List.findSome?_cons] using h
      simpa [set_first_cseq_seq, cseq_of, List.findSome?_cons] using ih ht

theorem do_request_loop_cancel_local_seq (msgs : List SipMessage) :
    ∀ d req auth_sent sent reqs,
      (do_request_loop d Method.Cancel req auth_sent sent reqs msgs).dialog.local_seq
        = d.local_seq := by
  induction msgs with
  | nil => intro _ _ _ _ _; rfl
  | cons msg rest ih =>
    intro d req a s reqs
    cases msg with
    | request r => rfl
    | response resp =>
      simp only [do_request_loop]
      split
      · exact ih _ _ _ _ _
      · split
        · split
          · rw [ih]
            exact transition_preserves_local_seq d _
          · exact transition_preserves_local_seq d _
        · split
          · split
            · split
              · exact transition_preserves_local_seq d _
              · exact transition_preserves_local_seq d _
            · split
              · exact ih _ _ _ _ _
              · split
                · rw [ih]
                  exact transition_preserves_local_seq d _
                · exact transition_preserves_local_seq d _
          · rfl

theorem do_request_cancel_preserves_local_seq (d : DialogInner)
    (req : Request) (msgs : List SipMessage)
    (hm : req.method = Method.Cancel) :
    (do_request d req msgs).dialog.local_seq = d.local_seq := by
  simp only [do_request]
  rw [hm]
  exact do_request_loop_cancel_local_seq msgs d _ false [] _

/-- C6: the CANCEL request is initial_request with method CANCEL, the
first CSeq header's seq set to the current local_seq without increment,
and the body cleared; cancel is exactly do_request on that request (no
state transition of its own), and after the call — including through the
401/407 authentication branch of do_request, which for CANCEL reads
get_local_seq instead of increment_local_seq — local_seq is unchanged. -/
theorem cancel_reuses_local_seq (d : DialogInner) (msgs : List SipMessage)
    (req : Request) (hbuild : build_cancel_request d = some req) :
    req.method = Method.Cancel
    ∧ cseq_of req.headers = some d.local_seq
    ∧ req.body = []
    ∧ req.uri = d.initial_request.uri
    ∧ cancel d msgs = some (do_request d req msgs)
    ∧ (do_request d req msgs).dialog.local_seq = d.local_seq := by
  have hb := hbuild
  unfold build_cancel_request at hbuild
  split at hbuild
  case isTrue hcs =>
    simp only [Option.some.injEq] at hbuild
    subst hbuild
    refine ⟨rfl, cseq_of_set_first_cseq_seq _ _ hcs, rfl, rfl, ?_, ?_⟩
    · unfold cancel
      rw [hb]
      rfl
    · exact do_request_cancel_preserves_local_seq d _ msgs rfl
  case isFalse => cases hbuild

/-- The CANCEL request cancel() builds from wDialog. -/
def wCancelReq : Request :=
  { wReqInvite with method := Method.Cancel,
                    headers := set_first_cseq_seq wReqInvite.headers 1,
                    body := ([] : List Nat) }

/-- A 401 Unauthorized response as a stream message. -/
def wMsg401 : SipMessage :=
  SipMessage.response { status_code := 401, headers := [], body := [], version := 2 }

/-- C6 witness: cancel on wDialog with a single 401 on the stream (the
authentication branch with no credential) leaves local_seq at 1. -/
theorem cancel_reuses_local_seq_witness :
    build_cancel_request wDialog = some wCancelReq
    ∧ cancel wDialog [wMsg401] = some (do_request wDialog wCancelReq [wMsg401])
    ∧ (do_request wDialog wCancelReq [wMsg401]).dialog.local_seq
        = wDialog.local_seq :=
  have h := cancel_reuses_local_seq wDialog [wMsg401] wCancelReq (by decide)
  ⟨by decide, h.2.2.2.2.1, h.2.2.2.2.2⟩

/-- C3: when the receive loop of process_invite gets a 200 OK, it
synthesizes an ACK with method ACK, the transaction's original request
URI, the response's headers verbatim and an empty body; it recomputes the
DialogId from that ACK, records the response as final, sends the ACK,
transitions to Confirmed with the new id and the response, breaks out of
the loop (the rest of the stream is ignored) and the driver returns the
recomputed DialogId together with Some(response). -/
theorem process_invite_200_ok_ack_confirm (d : DialogInner) (orig : Request)
    (dialog_id : DialogId) (fin : Option Response) (auth_sent : Bool)
    (acks : List Request) (sent : List DialogState) (reqs : List Request)
    (resp : Response) (rest : List SipMessage) (nid : DialogId)
    (hopen : d.sender_closed = false) (h200 : resp.status_code = 200)
    (hid : DialogId.try_from (make_ack orig resp) = some nid) :
    (make_ack orig resp).method = Method.Ack
    ∧ (make_ack orig resp).uri = orig.uri
    ∧ (make_ack orig resp).headers = resp.headers
    ∧ (make_ack orig resp).body = []
    ∧ process_invite_loop d orig dialog_id fin auth_sent acks sent reqs
        (SipMessage.response resp :: rest)
      = { dialog := { d with state := DialogState.Confirmed nid resp },
          dialog_id := nid,
          final_response := some resp,
          acks := acks ++ [make_ack orig resp],
          sent := sent ++ [DialogState.Confirmed nid resp],
          sent_requests := reqs,
          ok := true } := by
  refine ⟨rfl, rfl, rfl, rfl, ?_⟩
  simp only [process_invite_loop, h200]
  rw [hid]
  simp [DialogInner.transition, hopen, DialogState.is_persistent]

/-- The dialog id recomputed from the ACK: it picks up the server tag. -/
def wXyzId : DialogId := { call_id := "c1", from_tag := "f1", to_tag := "xyz" }

/-- C3 witness: wDialog receiving a 200 OK whose To header carries the
server tag xyz; the recomputed id picks up that tag. -/
theorem process_invite_200_ok_ack_confirm_witness :
    wDialog.sender_closed = false
    ∧ wResp200.status_code = 200
    ∧ DialogId.try_from (make_ack wReqInvite wResp200) = some wXyzId
    ∧ process_invite_loop wDialog wReqInvite wId none false [] [] [wReqInvite]
        [SipMessage.response wResp200]
      = { dialog := { wDialog with state := DialogState.Confirmed wXyzId wResp200 },
          dialog_id := wXyzId,
          final_response := some wResp200,
          acks := [make_ack wReqInvite wResp200],
          sent := [DialogState.Confirmed wXyzId wResp200],
          sent_requests := [wReqInvite],
          ok := true } :=
  have h := process_invite_200_ok_ack_confirm wDialog wReqInvite wId none
    false [] [] [wReqInvite] wResp200 [] wXyzId rfl rfl (by decide)
  ⟨rfl, rfl, by decide, by
    have h5 := h.2.2.2.2
    simpa using h5⟩

end Rsipstack
